import Mathlib

/-!
# Verification of the ELTA ELM-2135 message codec, framing and session logic

Shallow embedding of the Python sources:
  * `elta_message_decoder.py`  — header decode and per-type payload decoders
    (`EltaMessageDecoder`);
  * `elta_proper_handshake.py` — sender-side header encoding (`send_keep_alive`,
    `send_acknowledge`) and TCP framing (`process_tcp_buffer`);
  * `elta_final_working.py`    — outbound sequence numbering
    (`send_keep_alive_udp`, `send_system_control_standby`,
    `send_system_control_operate`, `send_acknowledge`);
  * `elta_icd_compliant.py`    — the per-message session state machine in
    `handle_tcp_client`.

Byte strings are modelled as `List Nat` (each entry one byte).  `struct.unpack`
of `<I`/`<Q` becomes a little-endian read at an offset; signed `<i` reads are
mapped to `Int` by two's complement.  IEEE-754 `<f`/`<d` fields are carried as
their raw little-endian bit patterns (the Python only unpacks and pretty-prints
them, it never computes with them).  The Python decoders return formatted
strings; the embedding keeps the structured content of those strings (which
fields were read and at which offsets) and drops the display formatting
(hex dumps, unit conversions, per-line text).
-/

namespace Elta

/-- Read one byte of a buffer (out-of-range reads never occur under the
    length guards the source performs before each `struct.unpack`). -/
def byteAt (data : List Nat) (i : Nat) : Nat := data.getD i 0

/-- `struct.unpack('<I', data[off:off+4])`: little-endian unsigned 32-bit. -/
def readU32 (data : List Nat) (off : Nat) : Nat :=
  byteAt data off + 256 * byteAt data (off + 1) +
    65536 * byteAt data (off + 2) + 16777216 * byteAt data (off + 3)

/-- `struct.unpack('<Q', data[off:off+8])`: little-endian unsigned 64-bit.
    Also used for the raw bit pattern of a `<d` (double) field. -/
def readU64 (data : List Nat) (off : Nat) : Nat :=
  readU32 data off + 4294967296 * readU32 data (off + 4)

/-- `struct.unpack('<i', data[off:off+4])`: two's-complement signed 32-bit. -/
def readI32 (data : List Nat) (off : Nat) : Int :=
  let n := readU32 data off
  if n < 2147483648 then (n : Int) else (n : Int) - 4294967296

/-- `struct.pack('<I', n)`: little-endian unsigned 32-bit encoding. -/
def encodeU32 (n : Nat) : List Nat :=
  [n % 256, n / 256 % 256, n / 65536 % 256, n / 16777216 % 256]

/-- The fixed 20-byte message header (all five fields unsigned 32-bit). -/
structure MessageHeader where
  source_id : Nat
  message_id : Nat
  message_length : Nat
  time_tag : Nat
  sequence_number : Nat
deriving DecidableEq, Repr

/-- `EltaMessageDecoder._decode_header` (`elta_message_decoder.py:126-141`):
    `msg_id, msg_length, time_tag, seq_num, source_id =
       struct.unpack('<IIIII', header_data)` —
    the message id is read from bytes 0..3 and the source id from bytes 16..19. -/
def decode_header (data : List Nat) : MessageHeader :=
  { message_id := readU32 data 0
    message_length := readU32 data 4
    time_tag := readU32 data 8
    sequence_number := readU32 data 12
    source_id := readU32 data 16 }

/-- The header parse used by the handshake client itself
    (`elta_proper_handshake.py:125,158`, `elta_icd_compliant.py:218-219`):
    `source_id, msg_id, msg_length, time_tag, seq_num =
       struct.unpack('<IIIII', data[:20])` —
    the source id is read from bytes 0..3. -/
def parse_header_handshake (data : List Nat) : MessageHeader :=
  { source_id := readU32 data 0
    message_id := readU32 data 4
    message_length := readU32 data 8
    time_tag := readU32 data 12
    sequence_number := readU32 data 16 }

/-- Sender-side header encoding (`elta_proper_handshake.py:208`,
    `elta_final_working.py:77,116,148,172`, `elta_icd_compliant.py:80`):
    `struct.pack('<IIIII', source_id, msg_id, msg_length, time_tag, seq_num)`. -/
def encode_header (h : MessageHeader) : List Nat :=
  encodeU32 h.source_id ++ encodeU32 h.message_id ++ encodeU32 h.message_length ++
    encodeU32 h.time_tag ++ encodeU32 h.sequence_number

/-- The header of the keep-alive message every sender emits
    (`elta_final_working.py:71-77`): source `0x2135`, id `0xCEF00400`,
    length 20. -/
def keepAliveHeader : MessageHeader :=
  { source_id := 0x2135, message_id := 0xCEF00400, message_length := 20
    time_tag := 0, sequence_number := 1 }

theorem encodeU32_length (n : Nat) : (encodeU32 n).length = 4 := rfl

theorem readU32_encodeU32_append (n : Nat) (rest : List Nat) (h : n < 4294967296) :
    readU32 (encodeU32 n ++ rest) 0 = n := by
  simp only [readU32, byteAt, encodeU32, List.cons_append, List.nil_append,
    List.getD, List.get?_eq_getElem?]
  simp only [List.getElem?_cons_zero, List.getElem?_cons_succ, Option.getD_some]
  omega

theorem byteAt_encodeU32_append (n k : Nat) (rest : List Nat) (h : 4 ≤ k) :
    byteAt (encodeU32 n ++ rest) k = byteAt rest (k - 4) := by
  simp only [byteAt, encodeU32]
  match k, h with
  | (m + 4), _ =>
    simp [List.getD, List.get?_eq_getElem?, List.getElem?_cons_succ]

theorem readU32_encodeU32_append_shift (n : Nat) (rest : List Nat) (k : Nat) (h : 4 ≤ k) :
    readU32 (encodeU32 n ++ rest) k = readU32 rest (k - 4) := by
  have h1 : 4 ≤ k + 1 := by omega
  have h2 : 4 ≤ k + 2 := by omega
  have h3 : 4 ≤ k + 3 := by omega
  simp only [readU32, byteAt_encodeU32_append n k rest h,
    byteAt_encodeU32_append n (k + 1) rest h1,
    byteAt_encodeU32_append n (k + 2) rest h2,
    byteAt_encodeU32_append n (k + 3) rest h3]
  have e1 : k + 1 - 4 = k - 4 + 1 := by omega
  have e2 : k + 2 - 4 = k - 4 + 2 := by omega
  have e3 : k + 3 - 4 = k - 4 + 3 := by omega
  rw [e1, e2, e3]

theorem readU32_encodeU32 (n : Nat) (h : n < 4294967296) :
    readU32 (encodeU32 n) 0 = n := by
  have := readU32_encodeU32_append n [] h
  simpa using this

/-- **C1 (counterexample).** The claim `decode(encode(m)) == m` fails on the
    code as the cited symbols stand: `send_keep_alive_udp` packs the header as
    `(sourceId, messageId, messageLength, timeTag, sequenceNumber)` while
    `EltaMessageDecoder._decode_header` unpacks the same 20 bytes as
    `(messageId, messageLength, timeTag, sequenceNumber, sourceId)`, so for the
    keep-alive header the five fields come back permuted, not unchanged. -/
theorem C1_decode_of_encode_permutes_fields :
    decode_header (encode_header keepAliveHeader) ≠ keepAliveHeader ∧
    (decode_header (encode_header keepAliveHeader)).message_id = 0x2135 ∧
    keepAliveHeader.message_id = 0xCEF00400 := by decide

/-- **C1 (amended).** The round trip does hold within a single header revision:
    parsing an encoded header with the sender's own field ordering
    (`process_udp_message` / `process_tcp_buffer`) returns all five
    little-endian u32 fields unchanged, provided each field fits in 32 bits. -/
theorem C1_header_roundtrip_same_revision (h : MessageHeader)
    (h1 : h.source_id < 4294967296) (h2 : h.message_id < 4294967296)
    (h3 : h.message_length < 4294967296) (h4 : h.time_tag < 4294967296)
    (h5 : h.sequence_number < 4294967296) :
    parse_header_handshake (encode_header h) = h := by
  have l4 : (4 : Nat) ≤ 4 := le_refl 4
  have hb : encode_header h =
      encodeU32 h.source_id ++ (encodeU32 h.message_id ++ (encodeU32 h.message_length ++
        (encodeU32 h.time_tag ++ encodeU32 h.sequence_number))) := by
    simp [encode_header, List.append_assoc]
  have r0 : readU32 (encode_header h) 0 = h.source_id := by
    rw [hb]; exact readU32_encodeU32_append _ _ h1
  have r4 : readU32 (encode_header h) 4 = h.message_id := by
    rw [hb, readU32_encodeU32_append_shift _ _ 4 l4]
    norm_num
    exact readU32_encodeU32_append _ _ h2
  have r8 : readU32 (encode_header h) 8 = h.message_length := by
    rw [hb, readU32_encodeU32_append_shift _ _ 8 (by omega)]
    norm_num
    rw [readU32_encodeU32_append_shift _ _ 4 l4]
    norm_num
    exact readU32_encodeU32_append _ _ h3
  have r12 : readU32 (encode_header h) 12 = h.time_tag := by
    rw [hb, readU32_encodeU32_append_shift _ _ 12 (by omega)]
    norm_num
    rw [readU32_encodeU32_append_shift _ _ 8 (by omega)]
    norm_num
    rw [readU32_encodeU32_append_shift _ _ 4 l4]
    norm_num
    exact readU32_encodeU32_append _ _ h4
  have r16 : readU32 (encode_header h) 16 = h.sequence_number := by
    rw [hb, readU32_encodeU32_append_shift _ _ 16 (by omega)]
    norm_num
    rw [readU32_encodeU32_append_shift _ _ 12 (by omega)]
    norm_num
    rw [readU32_encodeU32_append_shift _ _ 8 (by omega)]
    norm_num
    rw [readU32_encodeU32_append_shift _ _ 4 l4]
    norm_num
    exact readU32_encodeU32 _ h5
  simp [parse_header_handshake, r0, r4, r8, r12, r16]

/-- **C1 (witness).** The amended round trip evaluated at the concrete
    keep-alive header. -/
theorem C1_header_roundtrip_witness :
    parse_header_handshake (encode_header keepAliveHeader) = keepAliveHeader :=
  C1_header_roundtrip_same_revision keepAliveHeader
    (by decide) (by decide) (by decide) (by decide) (by decide)

/-! ## Message identifiers (`MessageType`, `elta_message_decoder.py:16-40`) -/

def KEEP_ALIVE : Nat := 0xCEF00400
def SYSTEM_CONTROL : Nat := 0xCEF00401
def SYSTEM_STATUS : Nat := 0xCEF00402
def TARGET_REPORT : Nat := 0xCEF00403
def SINGLE_TARGET_REPORT : Nat := 0xCEF00404
def ACKNOWLEDGE : Nat := 0xCEF00405
def SYSTEM_MOTION : Nat := 0xCEF00412
def SINGLE_TARGET_EXTENDED : Nat := 0xCEF00414
def SENSOR_POSITION : Nat := 0xCEF0041A
def RADAR_DATA_STREAM : Nat := 0x00000210

/-- The identifiers `decode_message` dispatches on
    (`elta_message_decoder.py:102-119`); every other id falls through to
    `_decode_generic_message`. -/
def registered_message_ids : List Nat :=
  [KEEP_ALIVE, SYSTEM_STATUS, TARGET_REPORT, SINGLE_TARGET_REPORT,
   SINGLE_TARGET_EXTENDED, SYSTEM_CONTROL, SYSTEM_MOTION, SENSOR_POSITION,
   RADAR_DATA_STREAM]

/-! ## Payload decoders (`elta_message_decoder.py`) -/

/-- Result of `_decode_system_status` (`elta_message_decoder.py:157-190`):
    three mandatory u32 fields once 12 payload bytes are present, then each
    optional field appears exactly when enough further bytes are present. -/
inductive SystemStatusBody where
  | insufficientPayload (raw : List Nat)
  | status (system_state operational_mode error_code : Nat)
      (temperature power_status antenna_position : Option Nat)
deriving DecidableEq, Repr

/-- `_decode_system_status`: `struct.unpack('<III', payload[:12])` when
    `len(payload) >= 12`, then temperature at 12..16, power status at 16..20,
    antenna position at 20..24, each guarded only by the payload length. -/
def decode_system_status (payload : List Nat) : SystemStatusBody :=
  if 12 ≤ payload.length then
    .status (readU32 payload 0) (readU32 payload 4) (readU32 payload 8)
      (if 16 ≤ payload.length then some (readU32 payload 12) else none)
      (if 20 ≤ payload.length then some (readU32 payload 16) else none)
      (if 24 ≤ payload.length then some (readU32 payload 20) else none)
  else .insufficientPayload payload

/-- One fixed 32-byte legacy target record
    (`_decode_single_target_data`, `struct.unpack('<IIIIiiii', target_data)`).
    The unit scaling (÷1000, ÷100) applied for display is not modelled; the
    fields hold the unpacked integers. -/
structure TargetRecord where
  target_id : Nat
  range_m : Nat
  azimuth : Nat
  elevation : Nat
  velocity : Int
  rcs : Int
  target_class : Int
  confidence : Int
deriving DecidableEq, Repr

/-- `_decode_single_target_data` (`elta_message_decoder.py:482-500`):
    `none` mirrors the `len(target_data) < 32` incomplete-data branch. -/
def decode_single_target_data (data : List Nat) : Option TargetRecord :=
  if 32 ≤ data.length then
    some { target_id := readU32 data 0
           range_m := readU32 data 4
           azimuth := readU32 data 8
           elevation := readU32 data 12
           velocity := readI32 data 16
           rcs := readI32 data 20
           target_class := readI32 data 24
           confidence := readI32 data 28 }
  else none

/-- The record loop of `_decode_target_report`
    (`elta_message_decoder.py:207-218`): decode up to `k` 32-byte records
    starting at `offset`; the Bool records whether the
    `Target i: Incomplete data` / `break` branch was taken. -/
def decode_target_records (payload : List Nat) (offset : Nat) :
    Nat → List TargetRecord × Bool
  | 0 => ([], false)
  | k + 1 =>
    if offset + 32 ≤ payload.length then
      match decode_single_target_data ((payload.drop offset).take 32) with
      | some t =>
        let rest := decode_target_records payload (offset + 32) k
        (t :: rest.1, rest.2)
      | none => ([], true)
    else ([], true)

/-- Result of `_decode_target_report`. -/
inductive TargetReportBody where
  | insufficientPayload (raw : List Nat)
  | report (num_targets : Nat) (targets : List TargetRecord)
      (incomplete_noted : Bool)
deriving DecidableEq, Repr

/-- `_decode_target_report` (`elta_message_decoder.py:192-220`): a 4-byte
    count, then `min(num_targets, (len(payload) - 4) // 32)` records. -/
def decode_target_report (payload : List Nat) : TargetReportBody :=
  if payload.length < 4 then .insufficientPayload payload
  else
    let num_targets := readU32 payload 0
    let recs := decode_target_records payload 4
      (min num_targets ((payload.length - 4) / 32))
    .report num_targets recs.1 recs.2

/-- Result of `_decode_single_target` (`elta_message_decoder.py:222-235`). -/
inductive SingleTargetBody where
  | insufficientPayload (raw : List Nat)
  | target (record : TargetRecord)
deriving DecidableEq, Repr

def decode_single_target (payload : List Nat) : SingleTargetBody :=
  if 32 ≤ payload.length then
    match decode_single_target_data (payload.take 32) with
    | some t => .target t
    | none => .insufficientPayload payload
  else .insufficientPayload payload

/-- The 332-byte extended target record (`_decode_targetdata`,
    `elta_message_decoder.py:265-432`).  Field names follow the Python locals;
    float/double fields hold the raw little-endian bit pattern of the bytes at
    the field's positional offset.  `flags` is the 8-byte availability vector
    read by `struct.unpack('<8B', data[144:152])`.  The fusion fields at
    offsets 24..56 and the spare bytes after 321 are skipped by the source and
    therefore not represented. -/
structure TargetData where
  target_id : Nat              -- u32 @ 0
  target_time_tag : Nat        -- u64 @ 4
  first_update_time : Nat      -- u64 @ 12
  target_source : Nat          -- u32 @ 20
  target_status : Nat          -- u32 @ 56
  score : Nat                  -- f32 bits @ 60
  target_class : Nat           -- u32 @ 64
  class_confidence : Nat       -- f32 bits @ 68
  seniority : Nat              -- u32 @ 72
  rcs : Nat                    -- f32 bits @ 76
  elevation : Nat              -- f64 bits @ 80
  azimuth : Nat                -- f64 bits @ 88
  range_m : Nat                -- f64 bits @ 96
  abs_vel : Nat                -- f32 bits @ 104
  course : Nat                 -- f32 bits @ 108
  sigma_elevation : Nat        -- f64 bits @ 112
  sigma_azimuth : Nat          -- f64 bits @ 120
  sigma_range : Nat            -- f64 bits @ 128
  num_dim : Nat                -- u32 @ 136
  coord_sys : Nat              -- u32 @ 140
  flags : List Nat             -- 8 bytes @ 144
  altitude : Nat               -- f64 bits @ 152 (geo, always read)
  latitude : Nat               -- f64 bits @ 160 (geo, always read)
  longitude : Nat              -- f64 bits @ 168 (geo, always read)
  target_x : Nat               -- f64 bits @ 176
  target_y : Nat               -- f64 bits @ 184
  target_z : Nat               -- f64 bits @ 192
  vel_x : Nat                  -- f64 bits @ 200
  vel_y : Nat                  -- f64 bits @ 208
  vel_z : Nat                  -- f64 bits @ 216
  sigma_x : Nat                -- f64 bits @ 224
  sigma_y : Nat                -- f64 bits @ 232
  sigma_z : Nat                -- f64 bits @ 240
  sigma_vel_x : Nat            -- f64 bits @ 248
  sigma_vel_y : Nat            -- f64 bits @ 256
  sigma_vel_z : Nat            -- f64 bits @ 264
  vel_elevation : Nat          -- f64 bits @ 272
  vel_azimuth : Nat            -- f64 bits @ 280
  vel_range : Nat              -- f64 bits @ 288
  var_vel_elev : Nat           -- f64 bits @ 296
  var_vel_az : Nat             -- f64 bits @ 304
  var_vel_range : Nat          -- f32 bits @ 312
  snr : Nat                    -- f32 bits @ 316
  hpt : Nat                    -- u8 @ 320
deriving DecidableEq, Repr

/-- `bool(flags[4])` — whether the geo-location triple already read at offsets
    152..176 is displayed (`elta_message_decoder.py:358,365`). -/
def TargetData.geo_loc_avail (td : TargetData) : Bool := byteAt td.flags 4 != 0

/-- `bool(flags[0])` — cartesian location availability. -/
def TargetData.cartesian_loc_avail (td : TargetData) : Bool := byteAt td.flags 0 != 0

/-- `_decode_targetdata` (`elta_message_decoder.py:265-432`): positional
    decode of all fields; `none` mirrors the `len(data) < 332` branch. -/
def decode_targetdata (data : List Nat) : Option TargetData :=
  if data.length < 332 then none
  else some
    { target_id := readU32 data 0
      target_time_tag := readU64 data 4
      first_update_time := readU64 data 12
      target_source := readU32 data 20
      target_status := readU32 data 56
      score := readU32 data 60
      target_class := readU32 data 64
      class_confidence := readU32 data 68
      seniority := readU32 data 72
      rcs := readU32 data 76
      elevation := readU64 data 80
      azimuth := readU64 data 88
      range_m := readU64 data 96
      abs_vel := readU32 data 104
      course := readU32 data 108
      sigma_elevation := readU64 data 112
      sigma_azimuth := readU64 data 120
      sigma_range := readU64 data 128
      num_dim := readU32 data 136
      coord_sys := readU32 data 140
      flags := (data.drop 144).take 8
      altitude := readU64 data 152
      latitude := readU64 data 160
      longitude := readU64 data 168
      target_x := readU64 data 176
      target_y := readU64 data 184
      target_z := readU64 data 192
      vel_x := readU64 data 200
      vel_y := readU64 data 208
      vel_z := readU64 data 216
      sigma_x := readU64 data 224
      sigma_y := readU64 data 232
      sigma_z := readU64 data 240
      sigma_vel_x := readU64 data 248
      sigma_vel_y := readU64 data 256
      sigma_vel_z := readU64 data 264
      vel_elevation := readU64 data 272
      vel_azimuth := readU64 data 280
      vel_range := readU64 data 288
      var_vel_elev := readU64 data 296
      var_vel_az := readU64 data 304
      var_vel_range := readU32 data 312
      snr := readU32 data 316
      hpt := byteAt data 320 }

/-- The 176-byte plot record (`_decode_plot_data`,
    `elta_message_decoder.py:434-480`); float fields carry raw bit patterns.
    The 64 spare bytes at the tail are skipped by the source. -/
structure PlotData where
  plot_time : Nat              -- u64 @ 0
  plot_id : Nat                -- u32 @ 8
  plot_elevation : Nat         -- f64 bits @ 12
  plot_azimuth : Nat           -- f64 bits @ 20
  plot_range : Nat             -- f64 bits @ 28
  plot_doppler : Nat           -- f32 bits @ 36
  plot_snr : Nat               -- f32 bits @ 40
  plot_sigma_elev : Nat        -- f64 bits @ 44
  plot_sigma_az : Nat          -- f64 bits @ 52
  plot_sigma_range : Nat       -- f64 bits @ 60
  plot_sigma_dop : Nat         -- f32 bits @ 68
deriving DecidableEq, Repr

/-- `_decode_plot_data`: `none` mirrors the `len(data) < 176` branch. -/
def decode_plot_data (data : List Nat) : Option PlotData :=
  if data.length < 176 then none
  else some
    { plot_time := readU64 data 0
      plot_id := readU32 data 8
      plot_elevation := readU64 data 12
      plot_azimuth := readU64 data 20
      plot_range := readU64 data 28
      plot_doppler := readU32 data 36
      plot_snr := readU32 data 40
      plot_sigma_elev := readU64 data 44
      plot_sigma_az := readU64 data 52
      plot_sigma_range := readU64 data 60
      plot_sigma_dop := readU32 data 68 }

/-- Result of `_decode_single_target_extended`
    (`elta_message_decoder.py:237-263`). -/
inductive SingleTargetExtendedBody where
  | insufficientPayload (raw : List Nat)
  | extended (targetdata : TargetData) (plot : PlotData)
deriving DecidableEq, Repr

/-- `_decode_single_target_extended`: requires `len(payload) >= 508`, then
    decodes `payload[:332]` as targetdata and `payload[332:508]` as plot data.
    The inner `none` fallbacks are unreachable (the slices always carry 332
    resp. 176 bytes) and mirror the decoders' own length guards. -/
def decode_single_target_extended (payload : List Nat) : SingleTargetExtendedBody :=
  if payload.length < 508 then .insufficientPayload payload
  else
    match decode_targetdata (payload.take 332) with
    | none => .insufficientPayload payload
    | some td =>
      match decode_plot_data ((payload.drop 332).take 176) with
      | none => .insufficientPayload payload
      | some pd => .extended td pd

/-- Result of `_decode_system_control` (`elta_message_decoder.py:502-516`). -/
inductive SystemControlBody where
  | insufficientPayload (raw : List Nat)
  | control (command parameter : Nat)
deriving DecidableEq, Repr

def decode_system_control (payload : List Nat) : SystemControlBody :=
  if 8 ≤ payload.length then .control (readU32 payload 0) (readU32 payload 4)
  else .insufficientPayload payload

/-- Result of `_decode_system_motion` (`elta_message_decoder.py:518-586`);
    double fields carry raw bit patterns, the 24 spare bytes at 64..88 are
    skipped by the source. -/
inductive SystemMotionBody where
  | insufficientPayload (raw : List Nat)
  | motion (time_gen : Nat)
      (altitude latitude longitude : Nat)
      (pitch roll yaw heading : Nat)
      (north_vel east_vel down_vel : Nat)
      (ang_vel_x ang_vel_y ang_vel_z : Nat)
      (accel_x accel_y accel_z : Nat)
deriving DecidableEq, Repr

def decode_system_motion (payload : List Nat) : SystemMotionBody :=
  if 172 ≤ payload.length then
    .motion (readU64 payload 0)
      (readU64 payload 8) (readU64 payload 16) (readU64 payload 24)
      (readU64 payload 32) (readU64 payload 40) (readU64 payload 48) (readU64 payload 56)
      (readU64 payload 88) (readU64 payload 96) (readU64 payload 104)
      (readU64 payload 112) (readU64 payload 120) (readU64 payload 128)
      (readU64 payload 136) (readU64 payload 144) (readU64 payload 152)
  else .insufficientPayload payload

/-- Result of `_decode_sensor_position` (`elta_message_decoder.py:588-607`):
    six signed 32-bit fields (display scaling not modelled). -/
inductive SensorPositionBody where
  | insufficientPayload (raw : List Nat)
  | position (latitude longitude altitude heading pitch roll : Int)
deriving DecidableEq, Repr

def decode_sensor_position (payload : List Nat) : SensorPositionBody :=
  if 24 ≤ payload.length then
    .position (readI32 payload 0) (readI32 payload 4) (readI32 payload 8)
      (readI32 payload 12) (readI32 payload 16) (readI32 payload 20)
  else .insufficientPayload payload

/-! ## `decode_message` (`elta_message_decoder.py:87-124`) -/

/-- The structured content of an `EltaMessageDecoder.decode_message` result.
    The Python returns a formatted string for every branch; each constructor
    here records which decoder produced the string and the values it embeds.
    `error` is `_format_error` ("Message too short" for fewer than 20 bytes).
    `keepAlive` and `radarDataStream` carry the raw payload (their branches
    only report its size/hex), `generic` is `_decode_generic_message`. -/
inductive DecodedMessage where
  | error (errmsg : String) (raw : List Nat)
  | keepAlive (header : MessageHeader) (payload : List Nat)
  | systemStatus (header : MessageHeader) (body : SystemStatusBody)
  | targetReport (header : MessageHeader) (body : TargetReportBody)
  | singleTarget (header : MessageHeader) (body : SingleTargetBody)
  | singleTargetExtended (header : MessageHeader) (body : SingleTargetExtendedBody)
  | systemControl (header : MessageHeader) (body : SystemControlBody)
  | systemMotion (header : MessageHeader) (body : SystemMotionBody)
  | sensorPosition (header : MessageHeader) (body : SensorPositionBody)
  | radarDataStream (header : MessageHeader) (payload : List Nat)
  | generic (header : MessageHeader) (payload : List Nat)
deriving DecidableEq, Repr

/-- Whether the result is the `_format_error` branch. -/
def DecodedMessage.isError : DecodedMessage → Bool
  | .error _ _ => true
  | _ => false

/-- `decode_message` (`elta_message_decoder.py:87-124`): fewer than 20 bytes
    is an error; otherwise the 20-byte header is decoded, `payload = data[20:]`,
    and the message id routes to the matching payload decoder, any unknown id
    to `_decode_generic_message`.  The declared `message_length` is never
    compared against the available bytes. -/
def decode_message (data : List Nat) : DecodedMessage :=
  if data.length < 20 then .error "Message too short" data
  else
    let header := decode_header (data.take 20)
    let payload := data.drop 20
    if header.message_id = KEEP_ALIVE then .keepAlive header payload
    else if header.message_id = SYSTEM_STATUS then
      .systemStatus header (decode_system_status payload)
    else if header.message_id = TARGET_REPORT then
      .targetReport header (decode_target_report payload)
    else if header.message_id = SINGLE_TARGET_REPORT then
      .singleTarget header (decode_single_target payload)
    else if header.message_id = SINGLE_TARGET_EXTENDED then
      .singleTargetExtended header (decode_single_target_extended payload)
    else if header.message_id = SYSTEM_CONTROL then
      .systemControl header (decode_system_control payload)
    else if header.message_id = SYSTEM_MOTION then
      .systemMotion header (decode_system_motion payload)
    else if header.message_id = SENSOR_POSITION then
      .sensorPosition header (decode_sensor_position payload)
    else if header.message_id = RADAR_DATA_STREAM then
      .radarDataStream header payload
    else .generic header payload

/-! ## Slice lemmas: reads commute with the `payload[a:b]` slicing -/

theorem byteAt_take (l : List Nat) (n i : Nat) (h : i < n) :
    byteAt (l.take n) i = byteAt l i := by
  simp only [byteAt, List.getD_eq_getElem?_getD, List.getElem?_take, if_pos h]

theorem byteAt_drop (l : List Nat) (n i : Nat) :
    byteAt (l.drop n) i = byteAt l (n + i) := by
  simp only [byteAt, List.getD_eq_getElem?_getD, List.getElem?_drop]

theorem readU32_take (l : List Nat) (n off : Nat) (h : off + 4 ≤ n) :
    readU32 (l.take n) off = readU32 l off := by
  simp only [readU32]
  rw [byteAt_take _ _ _ (by omega), byteAt_take _ _ _ (by omega),
    byteAt_take _ _ _ (by omega), byteAt_take _ _ _ (by omega)]

theorem readU32_drop (l : List Nat) (n off : Nat) :
    readU32 (l.drop n) off = readU32 l (n + off) := by
  simp only [readU32, byteAt_drop, Nat.add_assoc]

theorem readU64_take (l : List Nat) (n off : Nat) (h : off + 8 ≤ n) :
    readU64 (l.take n) off = readU64 l off := by
  simp only [readU64]
  rw [readU32_take _ _ _ (by omega), readU32_take _ _ _ (by omega)]

theorem readU64_drop (l : List Nat) (n off : Nat) :
    readU64 (l.drop n) off = readU64 l (n + off) := by
  simp only [readU64, readU32_drop, Nat.add_assoc]

/-! ## C3: `decode_message` never validates the declared `messageLength` -/

/-- A 20-byte keep-alive whose header declares `messageLength = 1000` while
    only 20 bytes exist.  Field order per `_decode_header`
    (message id first, length second). -/
def c3_overdeclared_input : List Nat :=
  encodeU32 KEEP_ALIVE ++ encodeU32 1000 ++ encodeU32 0 ++ encodeU32 5 ++ encodeU32 7

/-- **C3 (counterexample).** An input whose header declares
    `messageLength = 1000` with only 20 bytes available decodes successfully
    as a plain keep-alive — `decode_message` neither rejects nor flags it
    (it never compares `message_length` with the bytes present). -/
theorem C3_overdeclared_length_not_flagged :
    c3_overdeclared_input.length = 20 ∧
    (decode_header (c3_overdeclared_input.take 20)).message_length = 1000 ∧
    decode_message c3_overdeclared_input =
      .keepAlive (decode_header (c3_overdeclared_input.take 20)) [] ∧
    (decode_message c3_overdeclared_input).isError = false := by decide

/-- **C3 (amended).** `decode_message` performs no `messageLength` validation
    at all: every input of at least 20 bytes decodes without error or warning,
    whatever `messageLength` the header declares. -/
theorem C3_no_length_validation (data : List Nat) (hlen : 20 ≤ data.length) :
    (decode_message data).isError = false := by
  simp only [decode_message]
  rw [if_neg (by omega)]
  split_ifs <;> rfl

/-- **C3 (witness).** The amended statement at the over-declared input. -/
theorem C3_no_length_validation_witness :
    (decode_message c3_overdeclared_input).isError = false :=
  C3_no_length_validation c3_overdeclared_input (by decide)

/-! ## C4: progressive SystemStatus decode -/

/-- **C4 (confirmed).** `_decode_system_status` extends its result exactly as
    far as the payload length allows: fewer than 12 bytes yields
    `InsufficientPayload` with the raw bytes preserved; at least 12 bytes
    yields state/mode/error, with temperature present iff ≥ 16 bytes, the
    power-status word iff ≥ 20 bytes and the antenna position iff ≥ 24 bytes —
    presence of each field depends only on the payload length. -/
theorem C4_system_status_progressive (p : List Nat) :
    (p.length < 12 → decode_system_status p = .insufficientPayload p) ∧
    (12 ≤ p.length →
      ∃ s m e t pw a, decode_system_status p = .status s m e t pw a ∧
        (t.isSome ↔ 16 ≤ p.length) ∧
        (pw.isSome ↔ 20 ≤ p.length) ∧
        (a.isSome ↔ 24 ≤ p.length)) := by
  constructor
  · intro h
    simp only [decode_system_status, if_neg (by omega : ¬ 12 ≤ p.length)]
  · intro h
    have hd : decode_system_status p =
        .status (readU32 p 0) (readU32 p 4) (readU32 p 8)
          (if 16 ≤ p.length then some (readU32 p 12) else none)
          (if 20 ≤ p.length then some (readU32 p 16) else none)
          (if 24 ≤ p.length then some (readU32 p 20) else none) := by
      simp only [decode_system_status, if_pos h]
    refine ⟨_, _, _, _, _, _, hd, ?_, ?_, ?_⟩
    · by_cases h16 : 16 ≤ p.length <;> simp [h16]
    · by_cases h20 : 20 ≤ p.length <;> simp [h20]
    · by_cases h24 : 24 ≤ p.length <;> simp [h24]

/-- **C4 (witness).** The progressive decode evaluated at a 3-byte payload
    (insufficient, raw bytes preserved) and at a 16-byte payload (temperature
    present, power status and antenna position absent). -/
theorem C4_system_status_progressive_witness :
    decode_system_status [1, 2, 3] = .insufficientPayload [1, 2, 3] ∧
    (∃ s m e t pw a,
      decode_system_status (List.replicate 16 7) = .status s m e t pw a ∧
        (t.isSome ↔ 16 ≤ (List.replicate (16 : Nat) (7 : Nat)).length) ∧
        (pw.isSome ↔ 20 ≤ (List.replicate (16 : Nat) (7 : Nat)).length) ∧
        (a.isSome ↔ 24 ≤ (List.replicate (16 : Nat) (7 : Nat)).length)) :=
  ⟨(C4_system_status_progressive [1, 2, 3]).1 (by decide),
   (C4_system_status_progressive (List.replicate 16 7)).2 (by decide)⟩

/-! ## C8: unrecognized identifiers decode as Generic, never as an error -/

/-- **C8 (confirmed).** For every input of at least 20 bytes whose message id
    (bytes 0..3 per `_decode_header`) is none of the registered identifiers,
    `decode_message` returns the Generic result carrying the decoded header
    (hence the identifier) and the raw payload bytes, and is not an error. -/
theorem C8_unknown_id_decodes_generic (data : List Nat) (hlen : 20 ≤ data.length)
    (hid : readU32 data 0 ∉ registered_message_ids) :
    decode_message data = .generic (decode_header (data.take 20)) (data.drop 20) ∧
    (decode_message data).isError = false := by
  have hmid : (decode_header (data.take 20)).message_id = readU32 data 0 :=
    readU32_take data 20 0 (by omega)
  simp only [registered_message_ids, List.mem_cons, List.not_mem_nil, or_false,
    not_or] at hid
  obtain ⟨n1, n2, n3, n4, n5, n6, n7, n8, n9⟩ := hid
  have hgen : decode_message data =
      .generic (decode_header (data.take 20)) (data.drop 20) := by
    simp only [decode_message]
    rw [if_neg (by omega), hmid,
      if_neg n1, if_neg n2, if_neg n3, if_neg n4, if_neg n5, if_neg n6,
      if_neg n7, if_neg n8, if_neg n9]
  exact ⟨hgen, by rw [hgen]; rfl⟩

/-- An input carrying the non-catalog identifier `0xCEF00999`. -/
def c8_unknown_id_input : List Nat :=
  encodeU32 0xCEF00999 ++ encodeU32 24 ++ encodeU32 0 ++ encodeU32 1 ++
    encodeU32 2 ++ [9, 9, 9, 9]

/-- **C8 (witness).** The Generic fallback evaluated at a concrete message
    with the unknown identifier `0xCEF00999` and a 4-byte payload. -/
theorem C8_unknown_id_decodes_generic_witness :
    decode_message c8_unknown_id_input =
      .generic (decode_header (c8_unknown_id_input.take 20))
        (c8_unknown_id_input.drop 20) ∧
    (decode_message c8_unknown_id_input).isError = false :=
  C8_unknown_id_decodes_generic c8_unknown_id_input (by decide) (by decide)

/-! ## C5: SingleTargetExtended decodes all 508 bytes positionally -/

/-- **C5 (confirmed).** `_decode_single_target_extended` returns
    `InsufficientPayload` with the raw bytes for any payload shorter than
    508 bytes; a 508-byte payload whose geo-location availability flag
    (payload byte 148, `flags[4]`) is clear still decodes without error,
    reading the target data positionally from `payload[:332]` (including the
    geo-location bytes at 152..176) and the plot data from `payload[332:508]`,
    and the result marks the geo fields as not-meaningful
    (`geo_loc_avail = false`) while still carrying their raw values. -/
theorem C5_extended_target_positional (p : List Nat) :
    (p.length < 508 → decode_single_target_extended p = .insufficientPayload p) ∧
    (p.length = 508 → byteAt p 148 = 0 →
      ∃ td pd, decode_single_target_extended p = .extended td pd ∧
        td.geo_loc_avail = false ∧
        td.altitude = readU64 p 152 ∧
        td.latitude = readU64 p 160 ∧
        td.longitude = readU64 p 168 ∧
        td.target_id = readU32 p 0 ∧
        td.hpt = byteAt p 320 ∧
        pd.plot_time = readU64 p 332 ∧
        pd.plot_sigma_dop = readU32 p 400) := by
  constructor
  · intro h
    simp only [decode_single_target_extended, if_pos h]
  · intro hlen hflag
    have hnot332 : ¬ (p.take 332).length < 332 := by
      simp [List.length_take, hlen]
    have hnot176 : ¬ ((p.drop 332).take 176).length < 176 := by
      simp [List.length_take, List.length_drop, hlen]
    simp only [decode_single_target_extended,
      if_neg (show ¬ p.length < 508 by omega),
      decode_targetdata, if_neg hnot332, decode_plot_data, if_neg hnot176]
    refine ⟨_, _, rfl, ?_, ?_, ?_, ?_, ?_, ?_, ?_, ?_⟩
    · simp only [TargetData.geo_loc_avail]
      rw [byteAt_take _ _ _ (by omega), byteAt_drop]
      norm_num
      rw [byteAt_take _ _ _ (by omega), hflag]
    · exact readU64_take p 332 152 (by omega)
    · exact readU64_take p 332 160 (by omega)
    · exact readU64_take p 332 168 (by omega)
    · exact readU32_take p 332 0 (by omega)
    · exact byteAt_take p 332 320 (by omega)
    · show readU64 ((p.drop 332).take 176) 0 = readU64 p 332
      rw [readU64_take _ _ _ (by omega), readU64_drop]
    · show readU32 ((p.drop 332).take 176) 68 = readU32 p 400
      rw [readU32_take _ _ _ (by omega), readU32_drop]

/-- **C5 (witness).** The 508-byte all-zero payload: the geo flag is clear,
    the decode succeeds and the geo fields are carried but marked
    unavailable. -/
theorem C5_extended_target_positional_witness :
    ∃ td pd,
      decode_single_target_extended (List.replicate 508 0) = .extended td pd ∧
      td.geo_loc_avail = false ∧
      td.altitude = readU64 (List.replicate 508 0) 152 ∧
      td.latitude = readU64 (List.replicate 508 0) 160 ∧
      td.longitude = readU64 (List.replicate 508 0) 168 ∧
      td.target_id = readU32 (List.replicate 508 0) 0 ∧
      td.hpt = byteAt (List.replicate 508 0) 320 ∧
      pd.plot_time = readU64 (List.replicate 508 0) 332 ∧
      pd.plot_sigma_dop = readU32 (List.replicate 508 0) 400 :=
  (C5_extended_target_positional (List.replicate 508 0)).2
    (by rw [List.length_replicate]) (by decide)

/-! ## C6: TargetReport record loop -/

theorem decode_target_records_no_break (p : List Nat) :
    ∀ (k offset : Nat), offset + 32 * k ≤ p.length →
      (decode_target_records p offset k).2 = false ∧
      (decode_target_records p offset k).1.length = k := by
  intro k
  induction k with
  | zero => intro offset _; simp [decode_target_records]
  | succ k ih =>
    intro offset h
    have h32 : offset + 32 ≤ p.length := by omega
    have hslice : 32 ≤ ((p.drop offset).take 32).length := by
      simp only [List.length_take, List.length_drop]
      omega
    have htail := ih (offset + 32) (by omega)
    simp only [decode_target_records, if_pos h32, decode_single_target_data,
      if_pos hslice]
    exact ⟨htail.1, by simp [htail.2]⟩

/-- The all-zero 32-byte record. -/
def zeroTargetRecord : TargetRecord :=
  { target_id := 0, range_m := 0, azimuth := 0, elevation := 0
    velocity := 0, rcs := 0, target_class := 0, confidence := 0 }

/-- A TargetReport payload declaring 3 targets but carrying only 2 complete
    32-byte records (4 + 64 bytes). -/
def c6_truncated_payload : List Nat := encodeU32 3 ++ List.replicate 64 0

/-- **C6 (counterexample).** With declared count 3 and only 2 complete
    records, `_decode_target_report` decodes the 2 available records without
    failing but does **not** mark the result as truncated: the only truncation
    note it can emit (the `Incomplete data` branch) is not taken
    (`incomplete_noted = false`), and nothing else in the result records the
    shortfall beyond the retained declared count. -/
theorem C6_truncated_report_not_marked :
    decode_target_report c6_truncated_payload =
      .report 3 [zeroTargetRecord, zeroTargetRecord] false ∧
    ([zeroTargetRecord, zeroTargetRecord] : List TargetRecord).length < 3 := by
  decide

/-- **C6 (amended).** For every payload of at least 4 bytes,
    `_decode_target_report` reads the 4-byte count and decodes exactly
    `min(count, (len(payload) - 4) / 32)` records without failing; when fewer
    complete records are present than declared, the truncation is observable
    only through the retained declared count, the incomplete-data branch
    never fires. -/
theorem C6_target_report_decodes_min (p : List Nat) (h4 : 4 ≤ p.length) :
    ∃ ts, decode_target_report p = .report (readU32 p 0) ts false ∧
      ts.length = min (readU32 p 0) ((p.length - 4) / 32) := by
  have hmin : min (readU32 p 0) ((p.length - 4) / 32) ≤ (p.length - 4) / 32 :=
    min_le_right _ _
  have hdm : (p.length - 4) / 32 * 32 ≤ p.length - 4 :=
    Nat.div_mul_le_self (p.length - 4) 32
  have hk : 4 + 32 * min (readU32 p 0) ((p.length - 4) / 32) ≤ p.length := by
    have h1 : 32 * min (readU32 p 0) ((p.length - 4) / 32) ≤
        32 * ((p.length - 4) / 32) := Nat.mul_le_mul_left 32 hmin
    omega
  obtain ⟨hb, hl⟩ := decode_target_records_no_break p
    (min (readU32 p 0) ((p.length - 4) / 32)) 4 hk
  refine ⟨(decode_target_records p 4
    (min (readU32 p 0) ((p.length - 4) / 32))).1, ?_, hl⟩
  simp only [decode_target_report, if_neg (show ¬ p.length < 4 by omega)]
  rw [hb]

/-- **C6 (witness).** The amended statement at the truncated payload
    (count 3, two records). -/
theorem C6_target_report_decodes_min_witness :
    ∃ ts, decode_target_report c6_truncated_payload =
      .report (readU32 c6_truncated_payload 0) ts false ∧
      ts.length = min (readU32 c6_truncated_payload 0)
        ((c6_truncated_payload.length - 4) / 32) :=
  C6_target_report_decodes_min c6_truncated_payload (by decide)

/-! ## C7 / C10: TCP framing (`process_tcp_buffer`,
    `elta_proper_handshake.py:153-193`) -/

/-- `struct.unpack('<IIIII', buffer[:20])` inside the framing loop;
    `none` is `struct.error`, raised exactly when the slice is not 20 bytes —
    which cannot happen once `len(buffer) >= 20`. -/
def unpack_five_u32 (data : List Nat) : Option (Nat × Nat × Nat × Nat × Nat) :=
  if data.length = 20 then
    some (readU32 data 0, readU32 data 4, readU32 data 8, readU32 data 12,
      readU32 data 16)
  else none

/-- Outcome of one iteration of the `while len(buffer) >= 20` loop:
    `exit` = the loop ends (condition false, or `break` waiting for more
    data) returning the remaining buffer; `emit` = a complete message was
    extracted and the loop continues on the rest; `skip` = the
    `except struct.error` recovery (`buffer = buffer[1:]; continue`). -/
inductive FramingStep where
  | exit (remaining : List Nat)
  | emit (message : List Nat) (rest : List Nat)
  | skip (rest : List Nat)
deriving DecidableEq, Repr

/-- One iteration of `process_tcp_buffer`: parse the header from
    `buffer[:20]` (handshake field order, `msg_length` at bytes 8..11),
    extract `buffer[:msg_length]` when that many bytes are buffered,
    otherwise break and wait for more data. -/
def process_tcp_buffer_step (buffer : List Nat) : FramingStep :=
  if buffer.length < 20 then .exit buffer
  else
    match unpack_five_u32 (buffer.take 20) with
    | none => .skip (buffer.drop 1)
    | some (_, _, msg_length, _, _) =>
      if msg_length ≤ buffer.length then
        .emit (buffer.take msg_length) (buffer.drop msg_length)
      else .exit buffer

/-- The framing loop with explicit fuel: the extracted messages plus
    (`some remainder`) when the loop exited within the fuel, `none` when the
    fuel ran out with the loop still running. -/
def process_tcp_buffer_run : Nat → List Nat → List (List Nat) × Option (List Nat)
  | 0, _ => ([], none)
  | fuel + 1, buffer =>
    match process_tcp_buffer_step buffer with
    | .exit rest => ([], some rest)
    | .emit m rest =>
      let r := process_tcp_buffer_run fuel rest
      (m :: r.1, r.2)
    | .skip rest => process_tcp_buffer_run fuel rest

/-- **C7 (confirmed).** The framing iteration waits (returns the whole buffer)
    until at least 20 bytes are buffered; once the header is readable it waits
    until `messageLength` total bytes are buffered; a complete message is
    exactly the first `messageLength` bytes and every byte beyond that
    boundary stays in the buffer for the next message; and the header parse is
    total on 20 bytes, so the discard-one-byte `struct.error` recovery exists
    but never fires and no iteration crashes. -/
theorem C7_framing_extracts_exact_length (buffer : List Nat) :
    (buffer.length < 20 → process_tcp_buffer_step buffer = .exit buffer) ∧
    (20 ≤ buffer.length → buffer.length < readU32 buffer 8 →
      process_tcp_buffer_step buffer = .exit buffer) ∧
    (20 ≤ buffer.length → readU32 buffer 8 ≤ buffer.length →
      process_tcp_buffer_step buffer =
        .emit (buffer.take (readU32 buffer 8)) (buffer.drop (readU32 buffer 8))) ∧
    (∀ rest, process_tcp_buffer_step buffer ≠ .skip rest) := by
  by_cases h20 : buffer.length < 20
  · refine ⟨fun _ => ?_, fun h _ => absurd h (by omega),
      fun h _ => absurd h (by omega), fun rest hc => ?_⟩
    · simp [process_tcp_buffer_step, if_pos h20]
    · simp [process_tcp_buffer_step, if_pos h20] at hc
  · have hlen20 : (buffer.take 20).length = 20 := by
      simp only [List.length_take]
      omega
    have hun : unpack_five_u32 (buffer.take 20) =
        some (readU32 buffer 0, readU32 buffer 4, readU32 buffer 8,
          readU32 buffer 12, readU32 buffer 16) := by
      rw [unpack_five_u32, if_pos hlen20, readU32_take _ _ _ (by omega),
        readU32_take _ _ _ (by omega), readU32_take _ _ _ (by omega),
        readU32_take _ _ _ (by omega), readU32_take _ _ _ (by omega)]
    have hstep : process_tcp_buffer_step buffer =
        (if readU32 buffer 8 ≤ buffer.length then
          .emit (buffer.take (readU32 buffer 8)) (buffer.drop (readU32 buffer 8))
        else .exit buffer) := by
      simp only [process_tcp_buffer_step, if_neg h20, hun]
    refine ⟨fun h => absurd h h20, fun _ hlt => ?_, fun _ hle => ?_,
      fun rest hc => ?_⟩
    · rw [hstep, if_neg (by omega)]
    · rw [hstep, if_pos hle]
    · rw [hstep] at hc
      split_ifs at hc

/-- A 22-byte buffer: complete 20-byte keep-alive (declared length 20)
    followed by two bytes of the next message. -/
def c7_boundary_buffer : List Nat :=
  encodeU32 0x2135 ++ encodeU32 KEEP_ALIVE ++ encodeU32 20 ++ encodeU32 0 ++
    encodeU32 2 ++ [7, 7]

/-- A 20-byte buffer whose header declares `messageLength = 100`. -/
def c7_wait_buffer : List Nat :=
  encodeU32 0x2135 ++ encodeU32 SYSTEM_STATUS ++ encodeU32 100 ++ encodeU32 0 ++
    encodeU32 1

/-- **C7 (witness).** The framing iteration at three concrete buffers: fewer
    than 20 bytes waits, a declared length of 100 with 20 bytes buffered
    waits, and a 22-byte buffer with declared length 20 emits exactly the
    first 20 bytes and keeps the 2 extra bytes. -/
theorem C7_framing_extracts_exact_length_witness :
    process_tcp_buffer_step [1, 2, 3] = .exit [1, 2, 3] ∧
    process_tcp_buffer_step c7_wait_buffer = .exit c7_wait_buffer ∧
    process_tcp_buffer_step c7_boundary_buffer =
      .emit (c7_boundary_buffer.take (readU32 c7_boundary_buffer 8))
        (c7_boundary_buffer.drop (readU32 c7_boundary_buffer 8)) :=
  ⟨(C7_framing_extracts_exact_length [1, 2, 3]).1 (by decide),
   (C7_framing_extracts_exact_length c7_wait_buffer).2.1 (by decide) (by decide),
   (C7_framing_extracts_exact_length c7_boundary_buffer).2.2.1 (by decide)
     (by decide)⟩

/-- A 20-byte buffer whose header declares `messageLength = 0`. -/
def c10_zero_length_buffer : List Nat :=
  encodeU32 0x2135 ++ encodeU32 SYSTEM_STATUS ++ encodeU32 0 ++ encodeU32 0 ++
    encodeU32 1

/-- **C10 (code bug).** On a buffer whose 20-byte header declares
    `messageLength = 0` the framing loop does **not** terminate: the iteration
    extracts the empty slice `buffer[:0]` and leaves the buffer unchanged
    (consuming nothing), so the loop condition `len(buffer) >= 20` stays true
    and `process_tcp_buffer` never returns, for any amount of fuel. -/
theorem C10_zero_length_loops_forever :
    c10_zero_length_buffer.length = 20 ∧
    readU32 c10_zero_length_buffer 8 = 0 ∧
    process_tcp_buffer_step c10_zero_length_buffer =
      .emit [] c10_zero_length_buffer ∧
    (∀ fuel, (process_tcp_buffer_run fuel c10_zero_length_buffer).2 = none) := by
  have hstep : process_tcp_buffer_step c10_zero_length_buffer =
      .emit [] c10_zero_length_buffer := by decide
  refine ⟨by decide, by decide, hstep, ?_⟩
  intro fuel
  induction fuel with
  | zero => rfl
  | succ n ih =>
    simp only [process_tcp_buffer_run, hstep]
    exact ih

/-! ## C2: session state machine
    (`EltaIcdCompliantClient.handle_tcp_client`, `elta_icd_compliant.py:182-299`,
    control-port connection) -/

def BIT_STATUS_DATA : Nat := 0xCEF00406

/-- The mutable session fields of `EltaIcdCompliantClient` that the per-message
    logic reads and writes (`elta_icd_compliant.py:45-49`). -/
structure ICDSessionState where
  current_state : String
  status_message_count : Nat
  standby_achieved : Bool
  operate_requested : Bool
deriving DecidableEq, Repr

/-- `__init__`: `current_state = "INIT"`, counters zero, flags false. -/
def icdInitialState : ICDSessionState :=
  { current_state := "INIT", status_message_count := 0
    standby_achieved := false, operate_requested := false }

/-- The messages the handler can send while processing one received message:
    `send_acknowledge` (Acknowledge `0xCEF00405` carrying the received
    sequence number), `send_system_control_standby` (SystemControl with
    `rdr_state = 2`) and `send_system_control_operate` (SystemControl with
    `rdr_state = 4`). -/
inductive OutboundMessage where
  | acknowledge (original_seq_num : Nat)
  | systemControlStandby
  | systemControlOperate
deriving DecidableEq, Repr

/-- Processing of one received TCP segment on the control port
    (`elta_icd_compliant.py:212-274`): messages shorter than 20 bytes are
    ignored; a SystemStatus bumps the counter, acknowledges every 3rd status,
    requests STANDBY at the 2nd status (once) and OPERATE at the 6th (once);
    a target-data id sets `current_state = "OPERATE_ACTIVE"`.
    The trailing block at lines 252-274 re-decodes `data` with
    `EltaMessageDecoder.decode_message` and would set
    `current_state = "OPERATE"` on an OPERATE/OPERATIONAL system state, but it
    is guarded by `isinstance(decoded, dict)` while `decode_message` returns a
    formatted `str` for every input, so that block never executes and is
    modelled as the identity. -/
def handle_tcp_client_step (st : ICDSessionState) (data : List Nat) :
    ICDSessionState × List OutboundMessage :=
  if data.length < 20 then (st, [])
  else
    let h := parse_header_handshake (data.take 20)
    if h.message_id = SYSTEM_STATUS then
      let count := st.status_message_count + 1
      let ackOut : List OutboundMessage :=
        if count % 3 = 0 then [.acknowledge h.sequence_number] else []
      if st.standby_achieved = false ∧ 2 ≤ count then
        ({ current_state := "STANDBY_REQUESTED", status_message_count := count
           standby_achieved := true, operate_requested := st.operate_requested },
         ackOut ++ [.systemControlStandby])
      else if st.standby_achieved = true ∧ st.operate_requested = false ∧
          6 ≤ count then
        ({ current_state := "OPERATE_REQUESTED", status_message_count := count
           standby_achieved := st.standby_achieved, operate_requested := true },
         ackOut ++ [.systemControlOperate])
      else ({ st with status_message_count := count }, ackOut)
    else if h.message_id = SINGLE_TARGET_REPORT ∨ h.message_id = BIT_STATUS_DATA ∨
        h.message_id = SENSOR_POSITION then
      ({ st with current_state := "OPERATE_ACTIVE" }, [])
    else (st, [])

/-- The handler applied to a list of received messages, collecting every
    outbound message in order. -/
def handle_tcp_client_run (st : ICDSessionState) :
    List (List Nat) → ICDSessionState × List OutboundMessage
  | [] => (st, [])
  | d :: ds =>
    let r := handle_tcp_client_step st d
    let rest := handle_tcp_client_run r.1 ds
    (rest.1, r.2 ++ rest.2)

/-- A SystemStatus message as the radar sends it (handshake field order:
    source, id, length, time, sequence) with a 12-byte payload carrying the
    given radar state. -/
def statusMsg (seq radar_state : Nat) : List Nat :=
  encodeU32 0x2135 ++ encodeU32 SYSTEM_STATUS ++ encodeU32 32 ++ encodeU32 0 ++
    encodeU32 seq ++ encodeU32 radar_state ++ encodeU32 1 ++ encodeU32 0

/-- Seven SystemStatus messages; the first six report state 3 (STANDBY), the
    seventh reports state 2 (OPERATIONAL, per the `SystemState` enum of
    `elta_message_decoder.py:42-48`). -/
def c2_status_trace : List (List Nat) :=
  [statusMsg 1 3, statusMsg 2 3, statusMsg 3 3, statusMsg 4 3, statusMsg 5 3,
   statusMsg 6 3, statusMsg 7 2]

/-- **C2 (code bug).** Feeding the session seven SystemStatus messages from
    `Connected` emits exactly one SystemControl(STANDBY) at the 2nd status,
    one Acknowledge per 3rd status carrying that status's sequence number, and
    exactly one SystemControl(OPERATE) at the 6th — but the final status,
    whose decoded radar state is OPERATIONAL, does **not** move the session to
    `Operate`: the state stays `"OPERATE_REQUESTED"`, because the block that
    would set `"OPERATE"` tests `isinstance(decoded, dict)` on the string
    returned by `decode_message` and never executes. -/
theorem C2_operate_transition_never_fires :
    (handle_tcp_client_run icdInitialState c2_status_trace).2 =
      [.systemControlStandby, .acknowledge 3, .acknowledge 6,
       .systemControlOperate] ∧
    decode_system_status ((statusMsg 7 2).drop 20) =
      .status 2 1 0 none none none ∧
    (handle_tcp_client_run icdInitialState c2_status_trace).1.current_state =
      "OPERATE_REQUESTED" ∧
    (handle_tcp_client_run icdInitialState c2_status_trace).1.current_state ≠
      "OPERATE" := by decide

/-! ## C9: outbound sequence numbering
    (`EltaFinalWorkingClient`, `elta_final_working.py:65-179`) -/

/-- The sender counters of `EltaFinalWorkingClient` that feed sequence
    numbers: `stats['keep_alive_sent']` and `stats['acknowledgments_sent']`. -/
structure SenderState where
  keep_alive_sent : Nat
  acknowledgments_sent : Nat
deriving DecidableEq, Repr

def initialSenderState : SenderState :=
  { keep_alive_sent := 0, acknowledgments_sent := 0 }

/-- One outbound send.  The time-dependent senders
    (`send_system_control_operate`, `send_acknowledge`) take
    `t = int(time.time())` as an argument. -/
inductive SendCmd where
  | keepAlive
  | controlStandby
  | controlOperate (t : Nat)
  | acknowledge (t orig : Nat)
deriving DecidableEq, Repr

/-- The sequence number each sender writes into its header, and the counter
    updates around it:
    `send_keep_alive_udp` (lines 65-92): `seq_num = keep_alive_sent + 1`,
    then `keep_alive_sent += 1`;
    `send_system_control_standby` (lines 94-124): `seq_num = 1`;
    `send_system_control_operate` (lines 126-156):
    `seq_num = int(time.time()) % 65536`;
    `send_acknowledge` (lines 158-179): `seq_num = int(time.time()) % 65536`,
    then `acknowledgments_sent += 1`. -/
def send_message (st : SenderState) : SendCmd → SenderState × Nat
  | .keepAlive =>
    ({ st with keep_alive_sent := st.keep_alive_sent + 1 },
     st.keep_alive_sent + 1)
  | .controlStandby => (st, 1)
  | .controlOperate t => (st, t % 65536)
  | .acknowledge t _ =>
    ({ st with acknowledgments_sent := st.acknowledgments_sent + 1 },
     t % 65536)

/-- The sequence numbers of a whole outbound trace, in send order. -/
def send_run (st : SenderState) : List SendCmd → List Nat
  | [] => []
  | c :: cs =>
    let r := send_message st c
    r.2 :: send_run r.1 cs

/-- The sequence numbers of the keep-alive sends only, in send order. -/
def keep_alive_seqs (st : SenderState) : List SendCmd → List Nat
  | [] => []
  | c :: cs =>
    let r := send_message st c
    match c with
    | .keepAlive => r.2 :: keep_alive_seqs r.1 cs
    | _ => keep_alive_seqs r.1 cs

/-- **C9 (counterexample).** Two keep-alives followed by the STANDBY control
    message yield sequence numbers 1, 2, 1 — the third outbound message's
    sequence number is not greater than the second's, so sequence numbers are
    not monotonically increasing across the sender's messages. -/
theorem C9_seq_not_monotone_across_kinds :
    send_run initialSenderState
      [SendCmd.keepAlive, SendCmd.keepAlive, SendCmd.controlStandby] =
      [1, 2, 1] ∧
    ¬ List.Pairwise (· < ·)
      (send_run initialSenderState
        [SendCmd.keepAlive, SendCmd.keepAlive, SendCmd.controlStandby]) := by
  decide

theorem send_message_keep_alive_sent (st : SenderState) (c : SendCmd) :
    st.keep_alive_sent ≤ (send_message st c).1.keep_alive_sent := by
  cases c <;> simp [send_message]

theorem keep_alive_seqs_lower_bound (cmds : List SendCmd) :
    ∀ st : SenderState, ∀ x ∈ keep_alive_seqs st cmds,
      st.keep_alive_sent < x := by
  induction cmds with
  | nil => intro st x hx; simp [keep_alive_seqs] at hx
  | cons c cs ih =>
    intro st x hx
    cases c with
    | keepAlive =>
      simp only [keep_alive_seqs, send_message, List.mem_cons] at hx
      rcases hx with h | h
      · omega
      · have := ih _ x h
        simp at this
        omega
    | controlStandby =>
      simp only [keep_alive_seqs] at hx
      exact ih _ x hx
    | controlOperate t =>
      simp only [keep_alive_seqs] at hx
      exact ih _ x hx
    | acknowledge t orig =>
      simp only [keep_alive_seqs] at hx
      have := ih _ x hx
      simpa [send_message] using this

theorem keep_alive_seqs_sublist_send_run (cmds : List SendCmd) :
    ∀ st : SenderState,
      List.Sublist (keep_alive_seqs st cmds) (send_run st cmds) := by
  induction cmds with
  | nil => intro st; simp [keep_alive_seqs, send_run]
  | cons c cs ih =>
    intro st
    cases c with
    | keepAlive =>
      simp only [keep_alive_seqs, send_run]
      exact List.Sublist.cons₂ _ (ih _)
    | controlStandby =>
      simp only [keep_alive_seqs, send_run]
      exact List.Sublist.cons _ (ih _)
    | controlOperate t =>
      simp only [keep_alive_seqs, send_run]
      exact List.Sublist.cons _ (ih _)
    | acknowledge t orig =>
      simp only [keep_alive_seqs, send_run]
      exact List.Sublist.cons _ (ih _)

/-- **C9 (amended).** Per message kind instead of globally: within any
    outbound trace, the keep-alive sequence numbers (driven by the
    `keep_alive_sent` counter) form a strictly increasing subsequence of the
    trace's sequence numbers; STANDBY controls always carry sequence number 1
    and OPERATE/Acknowledge carry wall-clock seconds mod 65536, so no global
    monotonicity holds. -/
theorem C9_keep_alive_seqs_strictly_increasing (st : SenderState)
    (cmds : List SendCmd) :
    List.Sublist (keep_alive_seqs st cmds) (send_run st cmds) ∧
    List.Pairwise (· < ·) (keep_alive_seqs st cmds) := by
  refine ⟨keep_alive_seqs_sublist_send_run cmds st, ?_⟩
  induction cmds generalizing st with
  | nil => simp [keep_alive_seqs]
  | cons c cs ih =>
    cases c with
    | keepAlive =>
      simp only [keep_alive_seqs]
      refine List.Pairwise.cons ?_ (ih _)
      intro x hx
      have := keep_alive_seqs_lower_bound cs _ x hx
      simp only [send_message] at this ⊢
      omega
    | controlStandby =>
      simp only [keep_alive_seqs]
      exact ih _
    | controlOperate t =>
      simp only [keep_alive_seqs]
      exact ih _
    | acknowledge t orig =>
      simp only [keep_alive_seqs]
      exact ih _

end Elta
